import Mathlib

/-!
Shallow embedding of the `Application-Monitoring` log-analytics pipeline:
the Kafka producer (`kafka-producer/producer.js`), the Kafka consumer
(`kafka-consumer/consumer.js`), the demo HTTP service (`api-server`)
and the CLI viewer. JavaScript values that flow through the pipeline
are modelled by `JsVal` (numbers as rationals, strings, `null`,
`undefined`); JSON objects by association lists keyed by field name.
Network and store effects are modelled by explicit oracles: the outcome
of each `producer.send` / `pool.query` call is an input parameter, and
random values drawn by `Math.random()` are rational parameters in `[0,1)`.
-/

set_option autoImplicit false

namespace AppMon

/-- A JavaScript value as it appears in the pipeline's JSON payloads:
a number (modelled as an exact rational), a string, `null`, or
`undefined` (the value of a missing object field). -/
inductive JsVal where
  | num (q : ℚ)
  | str (s : String)
  | jsNull
  | jsUndefined
deriving DecidableEq, Repr

/-- JavaScript truthiness for the values that occur in the pipeline:
`0`, `""`, `null` and `undefined` are falsy, everything else truthy. -/
def JsVal.truthy : JsVal → Bool
  | .num q => q ≠ 0
  | .str s => s ≠ ""
  | .jsNull => false
  | .jsUndefined => false

/-- The JavaScript `a || b` operator on `JsVal`. -/
def jsOr (a b : JsVal) : JsVal :=
  if a.truthy then a else b

/-- The `x || null` defaulting used by the consumer's insert parameters. -/
def orNull (a : JsVal) : JsVal :=
  jsOr a .jsNull

/-- How the `pg` client serialises a JS value into a SQL parameter:
`undefined` becomes SQL NULL, everything else is passed through. -/
def toSql (a : JsVal) : JsVal :=
  if a = .jsUndefined then .jsNull else a

/-- A JSON object: an association list from field names to values.
Later bindings shadow earlier ones, as with JavaScript object spread,
so field lookup scans from the right. -/
abbrev JsObj := List (String × JsVal)

/-- Reading a field of a JS object; a missing field reads as `undefined`.
The rightmost binding wins, matching JS object-literal/spread semantics. -/
def getField (o : JsObj) (k : String) : JsVal :=
  match o.reverse.find? (fun p => p.1 == k) with
  | some p => p.2
  | none => .jsUndefined

/-- Whether the object has the field at all (`k in o` in JS). A field
bound to `undefined` still counts as present, matching JS. -/
def hasField (o : JsObj) (k : String) : Bool :=
  o.any (fun p => p.1 == k)

/-! ## Consumer (`kafka-consumer/consumer.js`) -/

/-- The two topic names, `Object.values(topics)` of both processes. -/
def topicsValues : List String := ["api-logs", "system-metrics"]

/-- A row of the `api_logs` table. The `timestamp` column holds the
`Date` constructed from the event's timestamp; it is carried as the raw
event value since the claims compare it only modulo serialization. -/
structure ApiLogRow where
  timestamp : JsVal
  endpoint : JsVal
  status : JsVal
  response_time : JsVal
  method : JsVal
  error : JsVal
  error_code : JsVal
deriving DecidableEq, Repr

/-- A row of the `system_metrics` table. -/
structure MetricRow where
  timestamp : JsVal
  cpu : JsVal
  memory : JsVal
  disk_usage : JsVal
  active_requests : JsVal
deriving DecidableEq, Repr

/-- The relational store: the two tables written by the consumer,
rows in insertion order. -/
structure DbState where
  api_logs : List ApiLogRow
  system_metrics : List MetricRow
deriving DecidableEq, Repr

/-- The row `processApiLog` inserts for a parsed API log event: the
destructured fields, with `status`, `responseTime`, `method`, `error`
and `errorCode` passed through `|| null`; `endpoint` is passed raw
(only `undefined` becomes NULL, via the driver). -/
def apiLogRowOf (log : JsObj) : ApiLogRow where
  timestamp := getField log "timestamp"
  endpoint := toSql (getField log "endpoint")
  status := toSql (orNull (getField log "status"))
  response_time := toSql (orNull (getField log "responseTime"))
  method := toSql (orNull (getField log "method"))
  error := toSql (orNull (getField log "error"))
  error_code := toSql (orNull (getField log "errorCode"))

/-- The row `processSystemMetrics` inserts: all five fields passed raw. -/
def metricRowOf (m : JsObj) : MetricRow where
  timestamp := getField m "timestamp"
  cpu := toSql (getField m "cpu")
  memory := toSql (getField m "memory")
  disk_usage := toSql (getField m "diskUsage")
  active_requests := toSql (getField m "activeRequests")

/-- `processApiLog`: attempt the INSERT into `api_logs`; `dbOk` is the
oracle for whether the store accepts it. On failure the error is logged
and the function returns normally (its `catch` never rethrows). -/
def processApiLog (dbOk : Bool) (log : JsObj) (st : DbState) :
    DbState × List String :=
  if dbOk then
    ({ st with api_logs := st.api_logs ++ [apiLogRowOf log] },
     ["API log stored in database"])
  else
    (st, ["Error processing API log"])

/-- `processSystemMetrics`: attempt the INSERT into `system_metrics`;
same failure behaviour as `processApiLog`. -/
def processSystemMetrics (dbOk : Bool) (m : JsObj) (st : DbState) :
    DbState × List String :=
  if dbOk then
    ({ st with system_metrics := st.system_metrics ++ [metricRowOf m] },
     ["System metrics stored in database"])
  else
    (st, ["Error processing system metrics"])

/-- The result of `JSON.parse(message.value.toString())`: either the
parsed object, or the parse threw (the message value was not valid
JSON), carrying the error message. -/
inductive MessageParse where
  | malformed (errMsg : String)
  | parsed (data : JsObj)
deriving Repr

/-- The consumer's `eachMessage` handler: parse the message value, then
route by topic to the corresponding insert. The whole body is wrapped
in try/catch, so a parse failure is logged and the handler returns
normally with the store untouched. A message on an unknown topic falls
through both branches and is ignored. -/
def eachMessage (dbOk : Bool) (topic : String) (msg : MessageParse)
    (st : DbState) : DbState × List String :=
  match msg with
  | .malformed e => (st, ["Error processing message: " ++ e])
  | .parsed data =>
    if topic = "api-logs" then
      processApiLog dbOk data st
    else if topic = "system-metrics" then
      processSystemMetrics dbOk data st
    else
      (st, [])

/-! ## Producer (`kafka-producer/producer.js`) -/

/-- The resolved value of `axios.get`: axios resolves only for 2xx
statuses (default `validateStatus`), so a resolved response carries the
observed status and the optional `x-response-time` header value
(`undefined` when the header is absent). -/
structure AxiosResponse where
  status : ℚ
  xResponseTime : JsVal
deriving DecidableEq, Repr

/-- A rejection of `axios.get` (timeout, connection refused, or a
non-2xx response) or of `producer.send`: `message` is `err.message`
and `responseStatus` is `err.response.status` when `err.response` is
set (non-2xx HTTP responses), `none` otherwise. -/
structure JsError where
  message : String
  responseStatus : Option ℚ
deriving DecidableEq, Repr

/-- Outcome of one `producer.send` call, supplied as an oracle. -/
inductive SendOutcome where
  | ok
  | fail (err : JsError)
deriving DecidableEq, Repr

/-- What one `collectApiLogs` tick did: the events it synthesized (as
object literals, in construction order), the events the broker actually
accepted, and the log lines emitted. -/
structure CollectResult where
  synthesized : List JsObj
  published : List JsObj
  logs : List String
deriving Repr

/-- The fixed endpoint set probed by `collectApiLogs`. -/
def apiEndpoints : List String := ["/", "/users", "/products", "/orders"]

/-- `endpoints[Math.floor(Math.random() * endpoints.length)]`: the
endpoint chosen for this probe, as a JS value (`undefined` if the index
were ever out of range, as JS indexing would give). -/
def probedEndpoint (epRand : ℚ) : JsVal :=
  match apiEndpoints.get? (Int.floor (epRand * 4)).toNat with
  | some s => .str s
  | none => .jsUndefined

/-- The success-path log entry of `collectApiLogs`: observed status,
and `response.headers['x-response-time'] || Math.floor(Math.random()*200)+50`
as the response time. -/
def successLogEntry (ts : String) (ep : JsVal) (resp : AxiosResponse)
    (fillerRand : ℚ) : JsObj :=
  [("timestamp", .str ts),
   ("endpoint", ep),
   ("status", .num resp.status),
   ("responseTime",
     jsOr resp.xResponseTime (.num ((Int.floor (fillerRand * 200) : ℤ) + 50))),
   ("method", .str "GET")]

/-- The error-path log entry of `collectApiLogs`: built from the caught
error's message, with `errorCode` either the HTTP status of a non-2xx
response or the literal `'CONNECTION_ERROR'`. It has no `endpoint`,
`status` or `responseTime` field. -/
def errorLogEntry (ts : String) (err : JsError) : JsObj :=
  [("timestamp", .str ts),
   ("error", .str err.message),
   ("errorCode",
     match err.responseStatus with
     | some s => .num s
     | none => .str "CONNECTION_ERROR"),
   ("method", .str "GET")]

/-- One tick of `collectApiLogs`. `probe` is the oracle for the axios
GET; `send1` is the outcome of the first `producer.send` reached, and
`send2` of the second, if reached. A failure of the success-path send
is caught by the same outer `catch` as a probe failure: the caught
error's message is turned into an error-shaped log entry which is then
itself published (the Kafka error has no `response`, so its
`errorCode` is `'CONNECTION_ERROR'`). The inner `catch` around the
error-path send only logs. -/
def collectApiLogs (ts : String) (epRand fillerRand : ℚ)
    (probe : Except JsError AxiosResponse) (send1 send2 : SendOutcome) :
    CollectResult :=
  match probe with
  | .ok resp =>
    let entry := successLogEntry ts (probedEndpoint epRand) resp fillerRand
    match send1 with
    | .ok => ⟨[entry], [entry], ["Sent API log to Kafka"]⟩
    | .fail kafkaErr =>
      let errEntry := errorLogEntry ts ⟨kafkaErr.message, none⟩
      match send2 with
      | .ok => ⟨[entry, errEntry], [errEntry], ["Sent error log to Kafka"]⟩
      | .fail k2 =>
        ⟨[entry, errEntry], [],
         ["Failed to send error log to Kafka: " ++ k2.message]⟩
  | .error probeErr =>
    let errEntry := errorLogEntry ts probeErr
    match send1 with
    | .ok => ⟨[errEntry], [errEntry], ["Sent error log to Kafka"]⟩
    | .fail k2 =>
      ⟨[errEntry], [],
       ["Failed to send error log to Kafka: " ++ k2.message]⟩

/-- The metrics object synthesized by `collectSystemMetrics` from four
`Math.random()` draws. -/
def systemMetricsEvent (ts : String) (r1 r2 r3 r4 : ℚ) : JsObj :=
  [("timestamp", .str ts),
   ("cpu", .num (r1 * 100)),
   ("memory", .num (r2 * 100)),
   ("diskUsage", .num (50 + r3 * 30)),
   ("activeRequests", .num (Int.floor (r4 * 50) : ℤ))]

/-- One tick of `collectSystemMetrics`: synthesize the metrics object
and publish it; a send failure is caught and only logged. -/
def collectSystemMetrics (ts : String) (r1 r2 r3 r4 : ℚ)
    (send1 : SendOutcome) : CollectResult :=
  let m := systemMetricsEvent ts r1 r2 r3 r4
  match send1 with
  | .ok => ⟨[m], [m], ["Sent system metrics to Kafka"]⟩
  | .fail err =>
    ⟨[m], [], ["Error collecting system metrics: " ++ err.message]⟩

/-- `admin.createTopics`: the broker rejects a request naming a topic
that already exists; otherwise the requested topics are added. -/
def adminCreateTopics (existing : List String) (reqs : List String) :
    Except String (List String) :=
  if reqs.any (fun t => existing.contains t) then
    .error "topic already exists"
  else
    .ok (existing ++ reqs)

/-- The topic-creation step of the producer's `connectToKafka`: list
the broker's existing topics, request creation only of the members of
the fixed two-topic set that are missing, and skip the createTopics
call entirely when none are missing. Returns the broker's topic list
afterwards, or the surfaced error. -/
def connectToKafka (existing : List String) : Except String (List String) :=
  let topicsToCreate := topicsValues.filter (fun t => !existing.contains t)
  if topicsToCreate.length > 0 then
    adminCreateTopics existing topicsToCreate
  else
    .ok existing

/-! ## Demo HTTP service (`api-server`) -/

/-- An HTTP response of the demo service: a status code and JSON body. -/
structure HttpResponse where
  status : ℕ
  body : JsObj
deriving DecidableEq, Repr

/-- Merge of JS object literals `{ ...a, ...b }`: bindings of `b`
shadow those of `a`. With right-biased field lookup, list append has
exactly this shadowing behaviour. -/
def objMerge (a b : JsObj) : JsObj := a ++ b

/-- Whether this call of `simulateLatency` throws: after the busy-wait
delay it throws with probability 5% (`Math.random() < 0.05`). -/
def simulateLatencyThrows (errRand : ℚ) : Bool :=
  errRand < 5 / 100

/-- The `POST /orders` handler. `errRand` drives `simulateLatency`'s
error injection (a throw reaches the error middleware, which answers
500); `idRand` drives the assigned id; `now` is `new Date()` as
serialized; `body` is `req.body` (`none` when the json middleware set
no body). The handler rejects with 400 when the body is absent or
`user_id` or `product_id` is falsy; `quantity` is never examined. -/
def postOrders (errRand idRand : ℚ) (now : String) (body : Option JsObj) :
    HttpResponse :=
  if simulateLatencyThrows errRand then
    ⟨500, [("error", .str "Internal server error")]⟩
  else
    match body with
    | none => ⟨400, [("error", .str "Invalid order data")]⟩
    | some b =>
      if ¬ (getField b "user_id").truthy ∨ ¬ (getField b "product_id").truthy then
        ⟨400, [("error", .str "Invalid order data")]⟩
      else
        ⟨201,
         objMerge
           (objMerge [("id", .num ((Int.floor (idRand * 1000) : ℤ) : ℚ))] b)
           [("createdAt", .str now)]⟩

/-! ## Viewer (CLI `view-logs`) -/

/-- `parseInt(s)` in base 10: skip leading whitespace, take an optional
sign and the longest run of decimal digits; `none` is `NaN`. -/
def jsParseInt (s : String) : Option ℤ :=
  let t := s.trimLeft.data
  let core : List Char → Option ℕ := fun cs =>
    let ds := cs.takeWhile Char.isDigit
    if ds.isEmpty then none
    else some (ds.foldl (fun n c => 10 * n + (c.toNat - '0'.toNat)) 0)
  match t with
  | '-' :: rest => (core rest).map (fun n => -(n : ℤ))
  | '+' :: rest => (core rest).map (fun n => (n : ℤ))
  | cs => (core cs).map (fun n => (n : ℤ))

/-- The store as seen by the viewer: one oracle per query the menu can
issue, each either returning rows or raising a query error. `byStatus`
takes the `parseInt`-ed status code (`none` for `NaN`). -/
structure ViewerDb where
  recentApiLogs : Except String (List ApiLogRow)
  recentMetrics : Except String (List MetricRow)
  byEndpoint : String → Except String (List ApiLogRow)
  byStatus : Option ℤ → Except String (List ApiLogRow)
  slowResponses : Except String (List ApiLogRow)
  errorLogs : Except String (List ApiLogRow)
  maxId : Except String (Option ℤ)

/-- Terminal disposition of one menu interaction of the viewer. -/
inductive ViewerOutcome where
  | backToMenu
  | inlineErrorThenMenu (msg : String)
  | exited
  | unhandledRejection (msg : String)
deriving DecidableEq, Repr

/-- The endpoint choices offered by `searchLogsByEndpoint`. -/
def viewerEndpoints : List String := ["/users", "/products", "/health", "/orders"]

/-- `handleMenuChoice`, followed to the end of the interaction it
starts. Its `try`/`catch` wraps only the synchronous `await` of each
case; the `rl.question` callbacks of `searchLogsByEndpoint` (choice 3)
and `searchLogsByStatus` (choice 4) run later, outside that
`try`/`catch`, so a query error thrown inside such a callback rejects
a promise nobody awaits: the interaction ends as `unhandledRejection`
(no inline message, no `promptToContinue`). `input` is the answer the
user gives to the follow-up prompt of choices 3 and 4. `tailLogs`
(choice 7) awaits its initial MAX(id) query inside the `try`; its
polling ticks catch their own errors inline and the tail ends by timer
back at the menu. -/
def handleMenuChoice (db : ViewerDb) (choice : String) (input : String) :
    ViewerOutcome :=
  match choice with
  | "1" =>
    match db.recentApiLogs with
    | .ok _ => .backToMenu
    | .error m => .inlineErrorThenMenu ("Error: " ++ m)
  | "2" =>
    match db.recentMetrics with
    | .ok _ => .backToMenu
    | .error m => .inlineErrorThenMenu ("Error: " ++ m)
  | "3" =>
    match jsParseInt input with
    | none => .inlineErrorThenMenu "Invalid choice"
    | some n =>
      if n < 1 ∨ n > 4 then .inlineErrorThenMenu "Invalid choice"
      else
        match viewerEndpoints.get? (n - 1).toNat with
        | none => .inlineErrorThenMenu "Invalid choice"
        | some ep =>
          match db.byEndpoint ep with
          | .ok _ => .backToMenu
          | .error m => .unhandledRejection m
  | "4" =>
    match db.byStatus (jsParseInt input) with
    | .ok _ => .backToMenu
    | .error m => .unhandledRejection m
  | "5" =>
    match db.slowResponses with
    | .ok _ => .backToMenu
    | .error m => .inlineErrorThenMenu ("Error: " ++ m)
  | "6" =>
    match db.errorLogs with
    | .ok _ => .backToMenu
    | .error m => .inlineErrorThenMenu ("Error: " ++ m)
  | "7" =>
    match db.maxId with
    | .ok _ => .backToMenu
    | .error m => .inlineErrorThenMenu ("Error: " ++ m)
  | "8" => .exited
  | _ => .inlineErrorThenMenu "Invalid option selected"

/-! ## Helper lemmas -/

/-- The `|| null` defaulting followed by driver serialization keeps a
truthy value and turns any falsy value into SQL NULL. -/
theorem toSql_orNull (a : JsVal) :
    toSql (orNull a) = if a.truthy then a else .jsNull := by
  cases a with
  | num q =>
    by_cases hq : q = 0 <;>
      simp [toSql, orNull, jsOr, JsVal.truthy, hq]
  | str s =>
    by_cases hs : s = "" <;>
      simp [toSql, orNull, jsOr, JsVal.truthy, hs]
  | jsNull => rfl
  | jsUndefined => rfl

/-- An API log event whose value pair {status, responseTime} is
populated and whose pair {error, errorCode} is absent, or conversely:
the invariant claimed of every synthesized event. -/
def exclusiveShape (o : JsObj) : Bool :=
  (hasField o "status" && hasField o "responseTime"
     && !hasField o "error" && !hasField o "errorCode")
  || (hasField o "error" && hasField o "errorCode"
     && !hasField o "status" && !hasField o "responseTime")

theorem exclusiveShape_successLogEntry (ts : String) (ep : JsVal)
    (resp : AxiosResponse) (fillerRand : ℚ) :
    exclusiveShape (successLogEntry ts ep resp fillerRand) = true := rfl

theorem exclusiveShape_errorLogEntry (ts : String) (err : JsError) :
    exclusiveShape (errorLogEntry ts err) = true := by
  cases h : err.responseStatus <;>
    simp [exclusiveShape, errorLogEntry, hasField, h]

/-- The events one `collectApiLogs` tick synthesizes are the success
entry, the error entry, or both, in every combination of oracle
outcomes. -/
theorem collectApiLogs_synthesized (ts : String) (epRand fillerRand : ℚ)
    (probe : Except JsError AxiosResponse) (send1 send2 : SendOutcome) :
    ∀ o ∈ (collectApiLogs ts epRand fillerRand probe send1 send2).synthesized,
      (∃ resp, probe = .ok resp ∧
          o = successLogEntry ts (probedEndpoint epRand) resp fillerRand) ∨
      (∃ err, o = errorLogEntry ts err) := by
  intro o ho
  cases probe with
  | ok resp =>
    cases send1 with
    | ok =>
      simp only [collectApiLogs, List.mem_singleton] at ho
      exact Or.inl ⟨resp, rfl, ho⟩
    | fail kafkaErr =>
      cases send2 <;>
        · simp only [collectApiLogs, List.mem_cons, List.mem_singleton,
            List.not_mem_nil, or_false] at ho
          rcases ho with rfl | rfl
          · exact Or.inl ⟨resp, rfl, rfl⟩
          · exact Or.inr ⟨_, rfl⟩
  | error probeErr =>
    cases send1 <;>
      · simp only [collectApiLogs, List.mem_singleton] at ho
        exact Or.inr ⟨probeErr, ho ▸ rfl⟩

/-! ## C2 -/

/-- C2: every APILogEvent synthesized by a `collectApiLogs` tick
populates exactly one of the field pairs {status, responseTime} or
{error, errorCode}: the success-path entry carries status and
responseTime and neither error field, the error-path entry carries
error and errorCode and neither success field, and no synthesized
event has a mixed or empty combination. -/
theorem c2_synthesized_exclusive_shape (ts : String) (epRand fillerRand : ℚ)
    (probe : Except JsError AxiosResponse) (send1 send2 : SendOutcome) :
    ∀ o ∈ (collectApiLogs ts epRand fillerRand probe send1 send2).synthesized,
      exclusiveShape o = true := by
  intro o ho
  rcases collectApiLogs_synthesized ts epRand fillerRand probe send1 send2 o ho
    with ⟨resp, _, rfl⟩ | ⟨err, rfl⟩
  · exact exclusiveShape_successLogEntry ..
  · exact exclusiveShape_errorLogEntry ..

/-- Witness for C2 at a concrete tick: the probe of `/` answered 200
with no `x-response-time` header and the publish succeeded. -/
theorem c2_synthesized_exclusive_shape_witness :
    (successLogEntry "T" (probedEndpoint 0) ⟨200, .jsUndefined⟩ 0
        ∈ (collectApiLogs "T" 0 0 (.ok ⟨200, .jsUndefined⟩) .ok .ok).synthesized) ∧
    exclusiveShape (successLogEntry "T" (probedEndpoint 0) ⟨200, .jsUndefined⟩ 0) = true := by
  refine ⟨List.mem_singleton.mpr rfl, ?_⟩
  exact c2_synthesized_exclusive_shape "T" 0 0 (.ok ⟨200, .jsUndefined⟩) .ok .ok
    _ (List.mem_singleton.mpr rfl)

/-! ## C3 -/

/-- C3: a message on either topic (indeed any topic) whose value is not
valid JSON makes the per-message handler log the parse error and return
normally, inserting nothing: the store is unchanged and the only
effect is the error log line. The handler is a total function into
state-and-logs, so the consumer does not crash. -/
theorem c3_malformed_message_discarded (dbOk : Bool) (topic : String)
    (errMsg : String) (st : DbState) :
    eachMessage dbOk topic (.malformed errMsg) st
      = (st, ["Error processing message: " ++ errMsg]) := rfl

/-! ## C5 -/

/-- C5: every SystemMetricEvent synthesized from random draws in
`[0,1)` has cpu and memory in [0,100], diskUsage in [50,80], and a
non-negative integer activeRequests. -/
theorem c5_metric_bounds (ts : String) (r1 r2 r3 r4 : ℚ)
    (h1 : 0 ≤ r1 ∧ r1 < 1) (h2 : 0 ≤ r2 ∧ r2 < 1)
    (h3 : 0 ≤ r3 ∧ r3 < 1) (h4 : 0 ≤ r4 ∧ r4 < 1) :
    (∃ c : ℚ, getField (systemMetricsEvent ts r1 r2 r3 r4) "cpu" = .num c
        ∧ 0 ≤ c ∧ c ≤ 100) ∧
    (∃ m : ℚ, getField (systemMetricsEvent ts r1 r2 r3 r4) "memory" = .num m
        ∧ 0 ≤ m ∧ m ≤ 100) ∧
    (∃ d : ℚ, getField (systemMetricsEvent ts r1 r2 r3 r4) "diskUsage" = .num d
        ∧ 50 ≤ d ∧ d ≤ 80) ∧
    (∃ n : ℕ, getField (systemMetricsEvent ts r1 r2 r3 r4) "activeRequests"
        = .num n) := by
  obtain ⟨h1, h1'⟩ := h1
  obtain ⟨h2, h2'⟩ := h2
  obtain ⟨h3, h3'⟩ := h3
  obtain ⟨h4, h4'⟩ := h4
  refine ⟨⟨r1 * 100, rfl, by positivity, by nlinarith⟩,
    ⟨r2 * 100, rfl, by positivity, by nlinarith⟩,
    ⟨50 + r3 * 30, rfl, by nlinarith, by nlinarith⟩,
    ⟨(Int.floor (r4 * 50)).toNat, ?_⟩⟩
  have hnn : (0 : ℤ) ≤ Int.floor (r4 * 50) := by
    apply Int.floor_nonneg.mpr
    positivity
  have : ((Int.floor (r4 * 50)).toNat : ℚ) = ((Int.floor (r4 * 50) : ℤ) : ℚ) := by
    exact_mod_cast congrArg (fun z : ℤ => (z : ℚ)) (Int.toNat_of_nonneg hnn)
  rw [this]
  rfl

/-- Witness for C5 at the draw 1/2 for all four random values. -/
theorem c5_metric_bounds_witness :
    ((0 : ℚ) ≤ 1/2 ∧ (1/2 : ℚ) < 1) ∧
    ((∃ c : ℚ, getField (systemMetricsEvent "T" (1/2) (1/2) (1/2) (1/2)) "cpu"
        = .num c ∧ 0 ≤ c ∧ c ≤ 100) ∧
     (∃ m : ℚ, getField (systemMetricsEvent "T" (1/2) (1/2) (1/2) (1/2)) "memory"
        = .num m ∧ 0 ≤ m ∧ m ≤ 100) ∧
     (∃ d : ℚ, getField (systemMetricsEvent "T" (1/2) (1/2) (1/2) (1/2)) "diskUsage"
        = .num d ∧ 50 ≤ d ∧ d ≤ 80) ∧
     (∃ n : ℕ, getField (systemMetricsEvent "T" (1/2) (1/2) (1/2) (1/2)) "activeRequests"
        = .num n)) :=
  ⟨⟨by norm_num, by norm_num⟩,
   c5_metric_bounds "T" (1/2) (1/2) (1/2) (1/2)
     ⟨by norm_num, by norm_num⟩ ⟨by norm_num, by norm_num⟩
     ⟨by norm_num, by norm_num⟩ ⟨by norm_num, by norm_num⟩⟩

/-! ## C6 -/

/-- C6: topic creation is idempotent. From any duplicate-free broker
state, the connect-and-create-topics step surfaces no error (in
particular no duplicate-creation error, since it requests only the
missing topics), leaves a state holding exactly one topic per name of
the fixed two-element set, and running it again from that state is a
no-op returning the same state. -/
theorem c6_topic_creation_idempotent (existing : List String)
    (h : existing.Nodup) :
    ∃ s, connectToKafka existing = .ok s ∧
      connectToKafka s = .ok s ∧
      s.count "api-logs" = 1 ∧ s.count "system-metrics" = 1 := by
  have fixpt : ∀ s : List String, "api-logs" ∈ s → "system-metrics" ∈ s →
      connectToKafka s = .ok s := by
    intro s hs1 hs2
    simp [connectToKafka, topicsValues, hs1, hs2]
  by_cases m1 : "api-logs" ∈ existing <;>
    by_cases m2 : "system-metrics" ∈ existing
  · refine ⟨existing, ?_, fixpt existing m1 m2, ?_, ?_⟩
    · exact fixpt existing m1 m2
    · exact List.count_eq_one_of_mem h m1
    · exact List.count_eq_one_of_mem h m2
  · refine ⟨existing ++ ["system-metrics"], ?_, ?_, ?_, ?_⟩
    · simp [connectToKafka, topicsValues, m1, m2, adminCreateTopics]
    · exact fixpt _ (List.mem_append_left _ m1) (by simp)
    · rw [List.count_append, List.count_eq_one_of_mem h m1]
      simp
    · rw [List.count_append, List.count_eq_zero_of_not_mem m2]
      simp
  · refine ⟨existing ++ ["api-logs"], ?_, ?_, ?_, ?_⟩
    · simp [connectToKafka, topicsValues, m1, m2, adminCreateTopics]
    · exact fixpt _ (by simp) (List.mem_append_left _ m2)
    · rw [List.count_append, List.count_eq_zero_of_not_mem m1]
      simp
    · rw [List.count_append, List.count_eq_one_of_mem h m2]
      simp
  · refine ⟨existing ++ ["api-logs", "system-metrics"], ?_, ?_, ?_, ?_⟩
    · simp [connectToKafka, topicsValues, m1, m2, adminCreateTopics]
    · exact fixpt _ (by simp) (by simp)
    · rw [List.count_append, List.count_eq_zero_of_not_mem m1]
      simp
    · rw [List.count_append, List.count_eq_zero_of_not_mem m2]
      simp

/-- Witness for C6: a broker holding one unrelated topic. -/
theorem c6_topic_creation_idempotent_witness :
    (["other-topic"] : List String).Nodup ∧
    (∃ s, connectToKafka ["other-topic"] = .ok s ∧
      connectToKafka s = .ok s ∧
      s.count "api-logs" = 1 ∧ s.count "system-metrics" = 1) :=
  ⟨by decide, c6_topic_creation_idempotent ["other-topic"] (by decide)⟩

/-! ## C1 -/

/-- The end-to-end scenario event: timestamp T, endpoint /users,
status 200, responseTime 42, method GET. -/
def c1EventUsers : JsObj :=
  [("timestamp", .str "T"), ("endpoint", .str "/users"),
   ("status", .num 200), ("responseTime", .num 42), ("method", .str "GET")]

/-- The same event with responseTime 0, a falsy field value. -/
def c1EventZero : JsObj :=
  [("timestamp", .str "T"), ("endpoint", .str "/users"),
   ("status", .num 200), ("responseTime", .num 0), ("method", .str "GET")]

/-- Counterexample to C1 as stated: consuming an api-logs event whose
responseTime is 0 stores SQL NULL in response_time, not 0, so the
inserted row's columns do not all equal the event's fields. -/
theorem c1_counterexample :
    getField c1EventZero "responseTime" = .num 0 ∧
    (eachMessage true "api-logs" (.parsed c1EventZero) ⟨[], []⟩).1.api_logs
      = [apiLogRowOf c1EventZero] ∧
    (apiLogRowOf c1EventZero).response_time = .jsNull ∧
    (apiLogRowOf c1EventZero).response_time
      ≠ getField c1EventZero "responseTime" := by
  refine ⟨rfl, rfl, rfl, by decide⟩

/-- C1 amended: when the store accepts the insert, consuming a parsed
api-logs event appends exactly one row to api_logs (and none to
system_metrics); the endpoint column is the event's endpoint
(undefined stored as NULL) and the status, response_time, method,
error and error_code columns equal the event's corresponding fields
whenever those values are truthy — falsy values are stored as NULL by
the insert's || null defaulting. -/
theorem c1_roundtrip_truthy (o : JsObj) (st : DbState) :
    (eachMessage true "api-logs" (.parsed o) st).1.api_logs
      = st.api_logs ++ [apiLogRowOf o] ∧
    (eachMessage true "api-logs" (.parsed o) st).1.system_metrics
      = st.system_metrics ∧
    (apiLogRowOf o).endpoint = toSql (getField o "endpoint") ∧
    ((getField o "status").truthy = true →
      (apiLogRowOf o).status = getField o "status") ∧
    ((getField o "responseTime").truthy = true →
      (apiLogRowOf o).response_time = getField o "responseTime") ∧
    ((getField o "method").truthy = true →
      (apiLogRowOf o).method = getField o "method") ∧
    ((getField o "error").truthy = true →
      (apiLogRowOf o).error = getField o "error") ∧
    ((getField o "errorCode").truthy = true →
      (apiLogRowOf o).error_code = getField o "errorCode") := by
  refine ⟨rfl, rfl, rfl, ?_, ?_, ?_, ?_, ?_⟩ <;>
    · intro h
      simp [apiLogRowOf, toSql_orNull, h]

/-- Witness for C1 amended: the /users event consumed into an empty
store yields exactly one api_logs row, with status 200 and
response_time 42; filtering the table by endpoint /users returns
exactly that one row. -/
theorem c1_roundtrip_truthy_witness :
    ((getField c1EventUsers "status").truthy = true ∧
     (getField c1EventUsers "responseTime").truthy = true) ∧
    (eachMessage true "api-logs" (.parsed c1EventUsers) ⟨[], []⟩).1.api_logs
      = [apiLogRowOf c1EventUsers] ∧
    (apiLogRowOf c1EventUsers).status = .num 200 ∧
    (apiLogRowOf c1EventUsers).response_time = .num 42 ∧
    ((eachMessage true "api-logs" (.parsed c1EventUsers) ⟨[], []⟩).1.api_logs.filter
        (fun r => r.endpoint == .str "/users")).length = 1 := by
  have h := c1_roundtrip_truthy c1EventUsers ⟨[], []⟩
  refine ⟨⟨by decide, by decide⟩, by simpa using h.1, ?_, ?_, by decide⟩
  · exact (h.2.2.2.1 (by decide)).trans (by decide)
  · exact (h.2.2.2.2.1 (by decide)).trans (by decide)

/-! ## C10 -/

/-- The C10 counterexample event: a falsy (empty-string) endpoint with
the remaining fields truthy. -/
def c10Event : JsObj :=
  [("timestamp", .str "T"), ("endpoint", .str ""),
   ("status", .num 200), ("responseTime", .num 42), ("method", .str "GET")]

/-- Counterexample to C10 as stated: endpoint carries no || null
defaulting, so a falsy empty-string endpoint is stored as the empty
string, not NULL — the stored row does not differ from the event on
this falsy non-timestamp field. -/
theorem c10_counterexample :
    (getField c10Event "endpoint").truthy = false ∧
    (apiLogRowOf c10Event).endpoint = .str "" ∧
    (apiLogRowOf c10Event).endpoint ≠ .jsNull ∧
    (apiLogRowOf c10Event).endpoint = getField c10Event "endpoint" := by
  refine ⟨by decide, rfl, by decide, rfl⟩

/-- C10 amended: of the insert parameters, exactly the five carrying
|| null — status, response_time, method, error, error_code — store SQL
NULL when the event's value is falsy and the value itself when truthy;
endpoint is passed through uncoerced (only an absent/undefined endpoint
becomes NULL, via the driver), so the stored row differs from the
event exactly on the falsy values among those five coerced fields, not
on a falsy endpoint. -/
theorem c10_falsy_coercion (o : JsObj) :
    (apiLogRowOf o).status
      = (if (getField o "status").truthy then getField o "status" else .jsNull) ∧
    (apiLogRowOf o).response_time
      = (if (getField o "responseTime").truthy then getField o "responseTime"
         else .jsNull) ∧
    (apiLogRowOf o).method
      = (if (getField o "method").truthy then getField o "method" else .jsNull) ∧
    (apiLogRowOf o).error
      = (if (getField o "error").truthy then getField o "error" else .jsNull) ∧
    (apiLogRowOf o).error_code
      = (if (getField o "errorCode").truthy then getField o "errorCode"
         else .jsNull) ∧
    (apiLogRowOf o).endpoint = toSql (getField o "endpoint") ∧
    (apiLogRowOf o).timestamp = getField o "timestamp" :=
  ⟨toSql_orNull _, toSql_orNull _, toSql_orNull _, toSql_orNull _,
   toSql_orNull _, rfl, rfl⟩

/-! ## C4 -/

/-- Counterexample to C4 as stated: the probe succeeds (200), the
publish of the success event fails, and the broker accepts the next
publish — the tick then publishes a substitute error-shaped event
built from the broker error, not merely a log line. -/
theorem c4_counterexample :
    (collectApiLogs "T" 0 0 (.ok ⟨200, .jsUndefined⟩)
        (.fail ⟨"broker down", none⟩) .ok).published
      = [errorLogEntry "T" ⟨"broker down", none⟩] ∧
    (collectApiLogs "T" 0 0 (.ok ⟨200, .jsUndefined⟩)
        (.fail ⟨"broker down", none⟩) .ok).published ≠ [] ∧
    getField (errorLogEntry "T" ⟨"broker down", none⟩) "error"
      = .str "broker down" := by
  refine ⟨rfl, by simp [collectApiLogs], rfl⟩

/-- C4 amended: a publish failure on the error path, a metrics publish
failure and a consumer insert failure are each logged and the event
dropped with no retry and no substitute; but a publish failure on the
success path of the probe operation is caught by the probe-failure
handler, which synthesizes an error-shaped event from the broker
error's message (errorCode CONNECTION_ERROR) and attempts exactly one
publish of it — whose own failure, in turn, is only logged. -/
theorem c4_failure_handling (ts : String) (epRand fillerRand r1 r2 r3 r4 : ℚ)
    (resp : AxiosResponse) (probeErr kafkaErr k2 : JsError)
    (send2 : SendOutcome) (o m : JsObj) (st : DbState) :
    (collectApiLogs ts epRand fillerRand (.error probeErr) (.fail kafkaErr) send2
      = ⟨[errorLogEntry ts probeErr], [],
         ["Failed to send error log to Kafka: " ++ kafkaErr.message]⟩) ∧
    (collectApiLogs ts epRand fillerRand (.ok resp) (.fail kafkaErr) .ok
      = ⟨[successLogEntry ts (probedEndpoint epRand) resp fillerRand,
          errorLogEntry ts ⟨kafkaErr.message, none⟩],
         [errorLogEntry ts ⟨kafkaErr.message, none⟩],
         ["Sent error log to Kafka"]⟩) ∧
    (collectApiLogs ts epRand fillerRand (.ok resp) (.fail kafkaErr) (.fail k2)
      = ⟨[successLogEntry ts (probedEndpoint epRand) resp fillerRand,
          errorLogEntry ts ⟨kafkaErr.message, none⟩],
         [],
         ["Failed to send error log to Kafka: " ++ k2.message]⟩) ∧
    (collectSystemMetrics ts r1 r2 r3 r4 (.fail kafkaErr)
      = ⟨[systemMetricsEvent ts r1 r2 r3 r4], [],
         ["Error collecting system metrics: " ++ kafkaErr.message]⟩) ∧
    (processApiLog false o st = (st, ["Error processing API log"])) ∧
    (processSystemMetrics false m st
      = (st, ["Error processing system metrics"])) :=
  ⟨rfl, rfl, rfl, rfl, rfl, rfl⟩

/-! ## C7 -/

/-- The C7 counterexample body: user_id and product_id present,
quantity missing. -/
def c7Body : JsObj := [("user_id", .num 1), ("product_id", .num 2)]

/-- A full order body, quantity included. -/
def c7FullBody : JsObj :=
  [("user_id", .num 1), ("product_id", .num 2), ("quantity", .num 3)]

/-- Counterexample to C7 as stated: a POST /orders body missing the
required field quantity is answered 201, not 400 — the handler checks
only user_id and product_id (latency-simulation error injection off on
this draw). -/
theorem c7_counterexample :
    hasField c7Body "quantity" = false ∧
    (postOrders (1/2) 0 "T" (some c7Body)).status = 201 := by
  refine ⟨rfl, ?_⟩
  norm_num [postOrders, simulateLatencyThrows]
  decide

/-- C7 amended: when the latency simulation injects no error, POST
/orders returns 400 exactly when the body is absent or its user_id or
product_id is missing/falsy — quantity is never validated — and
otherwise 201 with an id field in the response body. -/
theorem c7_post_orders (errRand idRand : ℚ) (now : String) (b : JsObj)
    (herr : simulateLatencyThrows errRand = false) :
    (postOrders errRand idRand now none).status = 400 ∧
    ((getField b "user_id").truthy = false ∨
        (getField b "product_id").truthy = false →
      (postOrders errRand idRand now (some b)).status = 400) ∧
    ((getField b "user_id").truthy = true →
      (getField b "product_id").truthy = true →
      (postOrders errRand idRand now (some b)).status = 201 ∧
      hasField (postOrders errRand idRand now (some b)).body "id" = true) := by
  refine ⟨by simp [postOrders, herr], ?_, ?_⟩
  · intro h
    rcases h with h | h <;> simp [postOrders, herr, h]
  · intro h1 h2
    constructor
    · simp [postOrders, herr, h1, h2]
    · simp [postOrders, herr, h1, h2, hasField, objMerge]

/-- Witness for C7 amended: the full body is answered 201 with an id. -/
theorem c7_post_orders_witness :
    simulateLatencyThrows (1/2) = false ∧
    ((postOrders (1/2) 0 "T" (some c7FullBody)).status = 201 ∧
     hasField (postOrders (1/2) 0 "T" (some c7FullBody)).body "id" = true) := by
  have hs : simulateLatencyThrows (1/2 : ℚ) = false := by
    norm_num [simulateLatencyThrows]
  have h := c7_post_orders (1/2) 0 "T" c7FullBody hs
  exact ⟨hs, h.2.2 (by decide) (by decide)⟩

/-! ## C8 -/

/-- A viewer store oracle on which both search queries raise an error
and every other query succeeds with no rows. -/
def c8Db : ViewerDb where
  recentApiLogs := .ok []
  recentMetrics := .ok []
  byEndpoint := fun _ => .error "connection terminated"
  byStatus := fun _ => .error "connection terminated"
  slowResponses := .ok []
  errorLogs := .ok []
  maxId := .ok none

/-- Counterexample to C8 as stated: a query error during the
status-code search (menu choice 4) ends as an unhandled promise
rejection — the rl.question callback runs outside handleMenuChoice's
try/catch — not as an inline error message followed by the menu. -/
theorem c8_counterexample :
    handleMenuChoice c8Db "4" "200"
      = .unhandledRejection "connection terminated" := rfl

/-- C8 amended: a query error in a directly-awaited menu operation
(choices 1, 2, 5, 6, and the initial MAX(id) query of the tail mode 7)
is caught by handleMenuChoice's try/catch and surfaces as the inline
error message followed by a return to the main menu, never as an
unhandled rejection; but in the two operations that first prompt for
input — endpoint search (3) and status-code search (4) — the query
runs inside the rl.question callback, outside that try/catch, so a
query error there ends the interaction as an unhandled promise
rejection rather than an inline message and a return to the menu. -/
theorem c8_query_error_handling (db : ViewerDb) (input : String) :
    (∀ m : String,
      (db.recentApiLogs = .error m →
        handleMenuChoice db "1" input = .inlineErrorThenMenu ("Error: " ++ m)) ∧
      (db.recentMetrics = .error m →
        handleMenuChoice db "2" input = .inlineErrorThenMenu ("Error: " ++ m)) ∧
      (db.slowResponses = .error m →
        handleMenuChoice db "5" input = .inlineErrorThenMenu ("Error: " ++ m)) ∧
      (db.errorLogs = .error m →
        handleMenuChoice db "6" input = .inlineErrorThenMenu ("Error: " ++ m)) ∧
      (db.maxId = .error m →
        handleMenuChoice db "7" input = .inlineErrorThenMenu ("Error: " ++ m))) ∧
    (∀ c ∈ (["1", "2", "5", "6", "7"] : List String), ∀ m : String,
      handleMenuChoice db c input ≠ .unhandledRejection m) ∧
    (∀ m : String, db.byStatus (jsParseInt input) = .error m →
      handleMenuChoice db "4" input = .unhandledRejection m) ∧
    (∀ m : String, ∀ n : ℤ, ∀ ep : String, jsParseInt input = some n →
      ¬(n < 1 ∨ n > 4) → viewerEndpoints.get? (n - 1).toNat = some ep →
      db.byEndpoint ep = .error m →
      handleMenuChoice db "3" input = .unhandledRejection m) := by
  refine ⟨?_, ?_, ?_, ?_⟩
  · intro m
    refine ⟨?_, ?_, ?_, ?_, ?_⟩ <;>
      · intro h
        simp [handleMenuChoice, h]
  · intro c hc m
    simp only [List.mem_cons, List.mem_singleton, List.not_mem_nil, or_false] at hc
    rcases hc with rfl | rfl | rfl | rfl | rfl
    · cases h : db.recentApiLogs <;> simp [handleMenuChoice, h]
    · cases h : db.recentMetrics <;> simp [handleMenuChoice, h]
    · cases h : db.slowResponses <;> simp [handleMenuChoice, h]
    · cases h : db.errorLogs <;> simp [handleMenuChoice, h]
    · cases h : db.maxId <;> simp [handleMenuChoice, h]
  · intro m hm
    simp [handleMenuChoice, hm]
  · intro m n ep hn hnr hep hq
    simp only [handleMenuChoice, hn, if_neg hnr, hep, hq]

/-- A viewer store oracle on which every query raises an error. -/
def c8DbDown : ViewerDb where
  recentApiLogs := .error "connection terminated"
  recentMetrics := .error "connection terminated"
  byEndpoint := fun _ => .error "connection terminated"
  byStatus := fun _ => .error "connection terminated"
  slowResponses := .error "connection terminated"
  errorLogs := .error "connection terminated"
  maxId := .error "connection terminated"

/-- Witness for C8 amended: with every query erroring, choice 1 ends
as the inline error message and the return to the menu, while the
status-code search with input 200 ends as an unhandled rejection. -/
theorem c8_query_error_handling_witness :
    (c8DbDown.recentApiLogs = .error "connection terminated") ∧
    handleMenuChoice c8DbDown "1" "200"
      = .inlineErrorThenMenu "Error: connection terminated" ∧
    (c8Db.byStatus (jsParseInt "200") = .error "connection terminated") ∧
    handleMenuChoice c8Db "4" "200"
      = .unhandledRejection "connection terminated" ∧
    handleMenuChoice c8Db "1" "200" ≠ .unhandledRejection "boom" := by
  have h := c8_query_error_handling c8Db "200"
  have hd := c8_query_error_handling c8DbDown "200"
  exact ⟨rfl, (hd.1 "connection terminated").1 rfl, rfl,
    h.2.2.1 "connection terminated" rfl, h.2.1 "1" (by simp) "boom"⟩

/-! ## C9 -/

/-- The rejection axios produces for a probe answered 500: the service
was reached, so err.response is set and carries the status. -/
def c9ProbeErr : JsError := ⟨"Request failed with status code 500", some 500⟩

/-- Counterexample to C9 as stated: a probe that reached the service
and was answered a non-2xx 500 synthesizes an error event with
errorCode 500 but no endpoint field at all — the probed endpoint is
not recorded. -/
theorem c9_counterexample :
    (collectApiLogs "T" 0 0 (.error c9ProbeErr) .ok .ok).synthesized
      = [errorLogEntry "T" c9ProbeErr] ∧
    getField (errorLogEntry "T" c9ProbeErr) "errorCode" = .num 500 ∧
    hasField (errorLogEntry "T" c9ProbeErr) "endpoint" = false :=
  ⟨rfl, rfl, rfl⟩

/-- C9 amended: the endpoint field is recorded exactly on successful
(2xx) probes, where it is the probed path; on every failed probe —
connection failure and non-2xx answer alike — the synthesized error
event carries no endpoint field, the failure kind being recorded in
errorCode instead (the HTTP status when the service answered non-2xx,
the string CONNECTION_ERROR otherwise). -/
theorem c9_endpoint_field (ts : String) (epRand fillerRand : ℚ)
    (resp : AxiosResponse) (err : JsError) (send1 send2 : SendOutcome) :
    (∀ o ∈ (collectApiLogs ts epRand fillerRand (.ok resp) .ok send2).synthesized,
      getField o "endpoint" = probedEndpoint epRand) ∧
    (∀ o ∈ (collectApiLogs ts epRand fillerRand (.error err) send1 send2).synthesized,
      hasField o "endpoint" = false ∧
      getField o "errorCode"
        = (match err.responseStatus with
           | some s => .num s
           | none => .str "CONNECTION_ERROR")) := by
  constructor
  · intro o ho
    simp only [collectApiLogs, List.mem_singleton] at ho
    subst ho
    rfl
  · intro o ho
    cases send1 <;>
      · simp only [collectApiLogs, List.mem_singleton] at ho
        subst ho
        exact ⟨rfl, rfl⟩

/-- Witness for C9 amended: the successful probe of the first endpoint
records endpoint, the probed path. -/
theorem c9_endpoint_field_witness :
    (successLogEntry "T" (probedEndpoint 0) ⟨200, .jsUndefined⟩ 0
        ∈ (collectApiLogs "T" 0 0 (.ok ⟨200, .jsUndefined⟩) .ok .ok).synthesized) ∧
    getField (successLogEntry "T" (probedEndpoint 0) ⟨200, .jsUndefined⟩ 0) "endpoint"
      = probedEndpoint 0 ∧
    probedEndpoint 0 = .str "/" := by
  refine ⟨List.mem_singleton.mpr rfl, ?_, by simp [probedEndpoint, apiEndpoints]⟩
  exact (c9_endpoint_field "T" 0 0 ⟨200, .jsUndefined⟩ ⟨"", none⟩ .ok .ok).1 _
    (List.mem_singleton.mpr rfl)

end AppMon
